import Mathlib

/-!
# Verification of the espisy device registry and discovery engine

Shallow embedding of `src/espisy/core.py` (class `ESP`: the registry
`_device_register` / `_name_ip_map`, the operations `get`, `remove`, `add`,
`map_gpio_to_switch`, `_initialize_switches`, `refresh`, and the discovery
path `scan_network` / `__connect_validate_ipv4_address`) and of
`src/espisy/devices.py` (`device_name_class_map` and the device class
hierarchy, read as a type-string → capability-set resolver).

Python dictionaries are modelled as association lists with
first-occurrence lookup and in-place update (`dinsert`), which matches
dict semantics on the duplicate-free lists the operations produce.
The HTTP fetch `requests.get(f"http://{ip}/json").json()` is modelled as a
function `Net := String → Option DeviceState`; `none` stands for any of the
fetch failures the code handles (timeout, connection refusal, JSON decode
failure, missing keys).  Exceptions are modelled with `Except`; because the
Python code mutates dictionaries before some of its failure points, every
registry operation returns the registry it leaves behind together with its
`Except` outcome.  Threaded discovery is modelled as sequential processing
of the host list (registry mutation is serialized; any fixed completion
order is represented by the order of the list).
-/

set_option autoImplicit false

namespace Espisy

universe u

/-! ## Association-list model of Python dictionaries -/

/-- First-occurrence lookup, the semantics of `d[k]` / `d.get(k)`. -/
def dlookup {α : Type u} : List (String × α) → String → Option α
  | [], _ => none
  | (k, v) :: rest, k0 => if k = k0 then some v else dlookup rest k0

/-- Update in the sense of `d.update({k: v})` / `d[k] = v`: replace the binding of `k` in place if
present, else append. -/
def dinsert {α : Type u} : List (String × α) → String → α → List (String × α)
  | [], k0, v0 => [(k0, v0)]
  | (k, v) :: rest, k0, v0 =>
      if k = k0 then (k, v0) :: rest else (k, v) :: dinsert rest k0 v0

/-- Pop in the sense of `d.pop(k)` without default: the removed value and the remaining list,
or `none` (Python: `KeyError`) when the key is absent. -/
def dpop {α : Type u} : List (String × α) → String → Option (α × List (String × α))
  | [], _ => none
  | (k, v) :: rest, k0 =>
      if k = k0 then some (v, rest)
      else match dpop rest k0 with
        | none => none
        | some (v0, rest0) => some (v0, (k, v) :: rest0)

/-- The key list of a dictionary. -/
def dkeys {α : Type u} (m : List (String × α)) : List String :=
  m.map Prod.fst

@[simp] theorem dlookup_nil {α : Type u} (k : String) :
    dlookup ([] : List (String × α)) k = none := rfl

theorem dlookup_dinsert_self {α : Type u} (m : List (String × α)) (k : String) (v : α) :
    dlookup (dinsert m k v) k = some v := by
  induction m with
  | nil => simp [dinsert, dlookup]
  | cons p rest ih =>
      obtain ⟨k1, v1⟩ := p
      by_cases h : k1 = k
      · simp [dinsert, dlookup, h]
      · simp [dinsert, dlookup, h, ih]

theorem dlookup_dinsert_ne {α : Type u} (m : List (String × α)) (k k0 : String) (v : α)
    (h : k0 ≠ k) : dlookup (dinsert m k v) k0 = dlookup m k0 := by
  induction m with
  | nil => simp [dinsert, dlookup, Ne.symm h]
  | cons p rest ih =>
      obtain ⟨k1, v1⟩ := p
      by_cases h1 : k1 = k
      · subst h1
        simp [dinsert, dlookup, Ne.symm h]
      · by_cases h2 : k1 = k0
        · simp [dinsert, dlookup, h1, h2, h]
        · simp [dinsert, dlookup, h1, h2, ih]

theorem dkeys_dinsert {α : Type u} (m : List (String × α)) (k : String) (v : α) :
    dkeys (dinsert m k v) = if k ∈ dkeys m then dkeys m else dkeys m ++ [k] := by
  induction m with
  | nil => simp [dinsert, dkeys]
  | cons p rest ih =>
      obtain ⟨k1, v1⟩ := p
      by_cases h : k1 = k
      · subst h
        simp [dinsert, dkeys]
      · have h2 : ¬ (k = k1) := Ne.symm h
        have hstep : dinsert ((k1, v1) :: rest) k v = (k1, v1) :: dinsert rest k v := by
          simp [dinsert, h]
        rw [hstep]
        by_cases hm : k ∈ dkeys rest
        · have hm2 : k ∈ dkeys ((k1, v1) :: rest) := by
            simp only [dkeys, List.map_cons, List.mem_cons]
            right
            simpa [dkeys] using hm
          rw [if_pos hm2]
          rw [if_pos hm] at ih
          simp only [dkeys, List.map_cons]
          rw [show List.map Prod.fst (dinsert rest k v) = dkeys (dinsert rest k v) from rfl, ih]
          rfl
        · have hm2 : ¬ k ∈ dkeys ((k1, v1) :: rest) := by
            simp only [dkeys, List.map_cons, List.mem_cons]
            intro hc
            rcases hc with hc | hc
            · exact h2 hc
            · exact hm hc
          rw [if_neg hm2]
          rw [if_neg hm] at ih
          simp only [dkeys, List.map_cons]
          rw [show List.map Prod.fst (dinsert rest k v) = dkeys (dinsert rest k v) from rfl, ih]
          rfl

theorem dkeys_dinsert_of_not_mem {α : Type u} (m : List (String × α)) (k : String) (v : α)
    (h : ¬ k ∈ dkeys m) : dkeys (dinsert m k v) = dkeys m ++ [k] := by
  rw [dkeys_dinsert]; simp [h]

theorem dlookup_eq_none_iff_not_mem {α : Type u} (m : List (String × α)) (k : String) :
    dlookup m k = none ↔ ¬ k ∈ dkeys m := by
  induction m with
  | nil => simp [dlookup, dkeys]
  | cons p rest ih =>
      obtain ⟨k1, v1⟩ := p
      by_cases h : k1 = k
      · simp [dlookup, dkeys, h]
      · simp only [dlookup, if_neg h, dkeys, List.map_cons, List.mem_cons]
        rw [show List.map Prod.fst rest = dkeys rest from rfl]
        constructor
        · intro hn hc
          rcases hc with hc | hc
          · exact h hc.symm
          · exact ih.1 hn hc
        · intro hn
          exact ih.2 (fun hc => hn (Or.inr hc))

theorem dlookup_isSome_iff_mem {α : Type u} (m : List (String × α)) (k : String) :
    (dlookup m k).isSome = true ↔ k ∈ dkeys m := by
  rw [Option.isSome_iff_ne_none]
  constructor
  · intro h
    by_contra hmem
    exact h ((dlookup_eq_none_iff_not_mem m k).2 hmem)
  · intro hmem h
    exact (dlookup_eq_none_iff_not_mem m k).1 h hmem

theorem dpop_eq_none_iff {α : Type u} (m : List (String × α)) (k : String) :
    dpop m k = none ↔ dlookup m k = none := by
  induction m with
  | nil => simp [dpop, dlookup]
  | cons p rest ih =>
      obtain ⟨k1, v1⟩ := p
      by_cases h : k1 = k
      · simp [dpop, dlookup, h]
      · simp only [dpop, dlookup, if_neg h]
        cases hrec : dpop rest k with
        | none => simp [ih.1 hrec]
        | some pr => simp [hrec]; intro hl; rw [← ih] at hl; simp [hl] at hrec

theorem dpop_eq_some_of_dlookup {α : Type u} (m : List (String × α)) (k : String) (v : α)
    (h : dlookup m k = some v) :
    ∃ rest, dpop m k = some (v, rest) := by
  induction m with
  | nil => simp [dlookup] at h
  | cons p tail ih =>
      obtain ⟨k1, v1⟩ := p
      by_cases hk : k1 = k
      · simp [dlookup, hk] at h
        exact ⟨tail, by simp [dpop, hk, h]⟩
      · simp [dlookup, hk] at h
        obtain ⟨rest, hrest⟩ := ih h
        exact ⟨(k1, v1) :: rest, by simp [dpop, hk, hrest]⟩

theorem dpop_cons_eq {α : Type u} (k1 : String) (v1 : α) (tail : List (String × α)) (k0 : String) :
    dpop ((k1, v1) :: tail) k0 =
      if k1 = k0 then some (v1, tail)
      else match dpop tail k0 with
        | none => none
        | some (v0, rest0) => some (v0, (k1, v1) :: rest0) := rfl

theorem dpop_lookup_self {α : Type u} (m : List (String × α)) (k : String) (v : α)
    (rest : List (String × α)) (hnd : (dkeys m).Nodup) (h : dpop m k = some (v, rest)) :
    dlookup m k = some v ∧ dlookup rest k = none := by
  induction m generalizing rest with
  | nil => simp [dpop] at h
  | cons p tail ih =>
      obtain ⟨k1, v1⟩ := p
      simp only [dkeys, List.map_cons, List.nodup_cons] at hnd
      rw [dpop_cons_eq] at h
      by_cases hk : k1 = k
      · rw [if_pos hk] at h
        simp only [Option.some.injEq, Prod.mk.injEq] at h
        refine ⟨by simp [dlookup, hk, h.1], ?_⟩
        rw [← h.2, dlookup_eq_none_iff_not_mem]
        rw [hk] at hnd
        exact hnd.1
      · rw [if_neg hk] at h
        cases hrec : dpop tail k with
        | none => rw [hrec] at h; simp at h
        | some pr =>
            obtain ⟨v0, rest0⟩ := pr
            rw [hrec] at h
            simp only [Option.some.injEq, Prod.mk.injEq] at h
            obtain ⟨hv, hrest⟩ := h
            subst hv
            obtain ⟨h1, h2⟩ := ih rest0 hnd.2 hrec
            refine ⟨by simp [dlookup, hk, h1], ?_⟩
            rw [← hrest]
            simp [dlookup, hk, h2]

theorem dpop_lookup_other {α : Type u} (m : List (String × α)) (k k0 : String) (v : α)
    (rest : List (String × α)) (hne : k0 ≠ k) (h : dpop m k = some (v, rest)) :
    dlookup rest k0 = dlookup m k0 := by
  induction m generalizing rest with
  | nil => simp [dpop] at h
  | cons p tail ih =>
      obtain ⟨k1, v1⟩ := p
      rw [dpop_cons_eq] at h
      by_cases hk : k1 = k
      · rw [if_pos hk] at h
        simp only [Option.some.injEq, Prod.mk.injEq] at h
        rw [← h.2]
        have hne1 : ¬ (k1 = k0) := by rw [hk]; exact Ne.symm hne
        simp [dlookup, hne1]
      · rw [if_neg hk] at h
        cases hrec : dpop tail k with
        | none => rw [hrec] at h; simp at h
        | some pr =>
            obtain ⟨v0, rest0⟩ := pr
            rw [hrec] at h
            simp only [Option.some.injEq, Prod.mk.injEq] at h
            obtain ⟨hv, hrest⟩ := h
            subst hv
            rw [← hrest]
            by_cases hk0 : k1 = k0
            · simp [dlookup, hk0]
            · simp [dlookup, hk0, ih rest0 hrec]

/-! ## Data model (core.py state, devices.py taxonomy)

Only the fields the embedded operations read are modelled: of the state
document, `System → Unit Name` and `Sensors` (with each sensor's `TaskName`
and `Type`); of a switch entry, its `GPIO` value. -/

/-- One entry of the `Sensors` list of the device state document. -/
structure SensorTask where
  taskName : String
  type : String
  deriving DecidableEq, Repr

/-- The parsed `/json` state document of a device. -/
structure DeviceState where
  unitName : String
  sensors : List SensorTask
  deriving DecidableEq, Repr

/-- A value of the `_switches` dictionary: the inner dict `\x7b"GPIO": g\x7d`
where `g` is `None` until mapped. -/
structure SwitchInfo where
  gpio : Option Int
  deriving DecidableEq, Repr

/-- One ESP instance (the non-dummy path of `ESP.__init__`): `ip`, `name`,
`_state`, `_switches`. -/
structure ESPRecord where
  ip : String
  name : String
  state : DeviceState
  switches : List (String × SwitchInfo)
  deriving DecidableEq, Repr

/-- The class-level registry: `ESP._device_register` (address → record) and
`ESP._name_ip_map` (unit name → address). -/
structure Registry where
  deviceRegister : List (String × ESPRecord)
  nameIpMap : List (String × String)
  deriving DecidableEq, Repr

def emptyRegistry : Registry := ⟨[], []⟩

/-- Python exceptions the embedded operations can raise.  `transport`
covers `requests.ConnectTimeout` / `requests.ConnectionError` /
`json.JSONDecodeError` and the `KeyError` raised while reading a malformed
state document from a fetch: every failure of the modelled fetch. -/
inductive PyError where
  | keyError : String → PyError
  | espNotFound : PyError
  | noGPIO : PyError
  | transport : PyError
  deriving DecidableEq, Repr

/-- The network: `requests.get` of `http://<ip>/json` followed by `.json()`,
returning `none` on any fetch failure. -/
def Net : Type := String → Option DeviceState

/-! ## Operations of core.py -/

/-- Test whether `hay` starts with `needle` (on character lists, so that
the kernel can evaluate it). -/
def charsStartWith : List Char → List Char → Bool
  | _, [] => true
  | [], _ :: _ => false
  | c :: cs, d :: ds => c = d && charsStartWith cs ds

/-- Substring containment on character lists: some suffix of `hay` starts
with `needle`. -/
def charsContain : List Char → List Char → Bool
  | [], needle => needle.isEmpty
  | c :: cs, needle => charsStartWith (c :: cs) needle || charsContain cs needle

/-- Boolean form of the Python expression `"switch" in t.lower()`
(`ESP._initialize_switches`, core.py line 170): lowercase the type string,
then check substring containment. -/
def hasSwitchType (t : String) : Bool :=
  charsContain (t.data.map Char.toLower) ("switch".data)

/-- Loop body of `ESP._initialize_switches` (core.py 157-173): every sensor
whose `Type` contains "switch" (case-insensitively) is entered into the
switches dictionary with an unset GPIO; `sw` is the dictionary the loop
starts from (`self._switches`). -/
def initializeSwitches (sensors : List SensorTask) (sw : List (String × SwitchInfo)) :
    List (String × SwitchInfo) :=
  sensors.foldl (fun acc s =>
    if hasSwitchType s.type then dinsert acc s.taskName ⟨none⟩ else acc) sw

/-- Non-dummy `ESP.__init__` (core.py 40-60) applied to the state `st` its
`refresh()` fetched: `_state := st`, `_initialize_switches` over an empty
switches dict, `name := st["System"]["Unit Name"]`. -/
def mkESP (ip : String) (st : DeviceState) : ESPRecord :=
  { ip := ip
    name := st.unitName
    state := st
    switches := initializeSwitches st.sensors [] }

/-- Embedding of `ESP.refresh` (core.py 71-77) given the state the fetch returned: only
`_state` is replaced; `_switches` is not re-derived. -/
def ESP.refresh (e : ESPRecord) (st : DeviceState) : ESPRecord :=
  { e with state := st }

/-- Name resolution of `ESP.get` (core.py 413-414): if the key is present in
`_name_ip_map` it is replaced by the mapped address. -/
def resolveKey (reg : Registry) (k : String) : String :=
  match dlookup reg.nameIpMap k with
  | some a => a
  | none => k

/-- Embedding of `ESP.get` (core.py 393-418): resolve the name map first, then look the
address up in `_device_register`; `ESPNotFoundError` when absent. -/
def ESP.get (reg : Registry) (k : String) : Except PyError ESPRecord :=
  match dlookup reg.deviceRegister (resolveKey reg k) with
  | some e => Except.ok e
  | none => Except.error PyError.espNotFound

/-- Embedding of `ESP.remove` (core.py 420-437): `_device_register.pop(ip)` (a bare
`dict.pop`, raising `KeyError` when absent), then
`_name_ip_map.pop(esp_deleted.name)` (likewise).  The registry component of
the result is the state the dictionaries are left in, also on the error
paths (the first pop has already happened when the second raises). -/
def ESP.remove (reg : Registry) (ip : String) : Except PyError ESPRecord × Registry :=
  match dpop reg.deviceRegister ip with
  | none => (Except.error (PyError.keyError ip), reg)
  | some (esp, dr1) =>
    match dpop reg.nameIpMap esp.name with
    | none => (Except.error (PyError.keyError esp.name), { reg with deviceRegister := dr1 })
    | some (_, nm1) => (Except.ok esp, { deviceRegister := dr1, nameIpMap := nm1 })

/-- Embedding of `ESP.add` (core.py 439-455).  The code performs two independent fetches:
one to read the unit name, a second inside `ESP.__init__` (its `refresh`);
`net1` and `net2` are those two fetches (equal whenever the device is
stable).  `_name_ip_map` is updated before the record-constructing second
fetch, so a failure there leaves the name already indexed. -/
def ESP.add (net1 net2 : Net) (reg : Registry) (ip : String) :
    Except PyError Unit × Registry :=
  match net1 ip with
  | none => (Except.error PyError.transport, reg)
  | some st1 =>
    let nm1 := dinsert reg.nameIpMap st1.unitName ip
    match net2 ip with
    | none => (Except.error PyError.transport, { reg with nameIpMap := nm1 })
    | some st2 =>
      (Except.ok (),
        { nameIpMap := nm1, deviceRegister := dinsert reg.deviceRegister ip (mkESP ip st2) })

/-- Embedding of `ESP.map_gpio_to_switch` (core.py 192-207):
`self._switches[switch]["GPIO"] = gpio`; the indexing raises `KeyError`
when the switch is unknown. -/
def ESP.map_gpio_to_switch (e : ESPRecord) (switch : String) (gpio : Option Int) :
    Except PyError ESPRecord :=
  match dlookup e.switches switch with
  | none => Except.error (PyError.keyError switch)
  | some _ => Except.ok { e with switches := dinsert e.switches switch ⟨gpio⟩ }

/-- The caller pattern `ESP.get(key).map_gpio_to_switch(s, gpio)`: the ESP
object is shared with the registry, so the in-place mutation is visible
there; modelled by re-inserting the updated record at its address. -/
def registryMapGpio (reg : Registry) (key s : String) (gpio : Option Int) :
    Except PyError Registry :=
  let addr := resolveKey reg key
  match dlookup reg.deviceRegister addr with
  | none => Except.error PyError.espNotFound
  | some e =>
    match ESP.map_gpio_to_switch e s gpio with
    | Except.error err => Except.error err
    | Except.ok e1 =>
        Except.ok { reg with deviceRegister := dinsert reg.deviceRegister addr e1 }

/-! ## Discovery (scan_network / __connect_validate_ipv4_address) -/

/-- Per-address block of the persisted settings document: the value of
`settings["esps"][i][address]`.  `switches` is `Option` because the code
reaches it with `.get("switches")`, tolerating its absence. -/
structure PerSetting where
  switches : Option (List (String × SwitchInfo))
  deriving DecidableEq, Repr

/-- The persisted settings document (`esp.yaml`): its `esps` list.
`save_settings` (core.py 364-386) appends singleton dicts
`\x7bself.ip: \x7b"switches": ...\x7d\x7d`, so each list element is one
address paired with its block. -/
structure SettingsDoc where
  esps : List (String × PerSetting)
  deriving DecidableEq, Repr

/-- One iteration of the reconciliation loop of
`__connect_validate_ipv4_address` (core.py 529-535), at the fresh switch
name `sw`: evaluate
`saved.get("switches").get(switch, None).get("GPIO", None)` — an
`AttributeError` (a missing `switches` block or a missing per-switch entry)
is caught and the switch name logged; otherwise `map_gpio_to_switch`
applies the persisted value.  The accumulator is the record being mutated
in place together with the list of switch names logged so far. -/
def reconcileStep (ps? : Option (List (String × SwitchInfo)))
    (acc : ESPRecord × List String) (sw : String) : ESPRecord × List String :=
  match ps? with
  | none => (acc.1, acc.2 ++ [sw])
  | some ps =>
    match dlookup ps sw with
    | none => (acc.1, acc.2 ++ [sw])
    | some entry =>
      match ESP.map_gpio_to_switch acc.1 sw entry.gpio with
      | Except.ok e1 => (e1, acc.2)
      | Except.error _ => (acc.1, acc.2)

/-- The whole reconciliation loop: fold `reconcileStep` over the keys of
the freshly derived switches dictionary, starting from the fetched record
and an empty log. -/
def reconcileSwitches (esp : ESPRecord) (per : PerSetting) : ESPRecord × List String :=
  (dkeys esp.switches).foldl (reconcileStep per.switches) (esp, [])

/-- Settings lookup and application after a successful registration
(core.py 522-535): `ESP.get(host)` (name map first — an unexpected failure
kills only the probe thread, leaving the registry as the registration left
it), a `None` settings document (its indexing raises in the thread), the
`next(...)` search of `settings["esps"]` for a dict containing `esp.ip`,
the `d[host]` indexing (whose `KeyError` is caught by the probe's handler),
then the reconciliation loop. -/
def applyOldSettings (settings : Option SettingsDoc) (reg : Registry) (host : String) :
    Registry :=
  let key := resolveKey reg host
  match dlookup reg.deviceRegister key with
  | none => reg
  | some esp =>
    match settings with
    | none => reg
    | some sdoc =>
      match sdoc.esps.find? (fun p => p.1 == esp.ip) with
      | none => reg
      | some (addr, per) =>
        if addr = host then
          { reg with
            deviceRegister := dinsert reg.deviceRegister key (reconcileSwitches esp per).1 }
        else reg

/-- Embedding of `ESP.__connect_validate_ipv4_address` (core.py 508-538): fetch
`/json` (any timeout / connection / decode / key failure is caught and
ignored), check the name is truthy, skip when the name is already in
`_name_ip_map` (collision: logged, not registered), else `ESP.add` followed
by settings reconciliation.  An error raised by `ESP.add` is caught by the
probe's handler after its partial mutations. -/
def connectValidate (net : Net) (settings : Option SettingsDoc) (reg : Registry)
    (host : String) : Registry :=
  match net host with
  | none => reg
  | some st =>
    if st.unitName = "" then reg
    else if (dlookup reg.nameIpMap st.unitName).isSome then reg
    else
      let res := ESP.add net net reg host
      match res.1 with
      | Except.error _ => res.2
      | Except.ok _ => applyOldSettings settings res.2 host

/-- Embedding of `ESP.scan_network` (core.py 457-506): one probe per host of the range;
registry mutation is serialized, so the scan is modelled as the fold of the
probe step over the host list (any fixed completion order). -/
def ESP.scan_network (net : Net) (settings : Option SettingsDoc) (reg : Registry)
    (hosts : List String) : Registry :=
  hosts.foldl (connectValidate net settings) reg

/-! ## Registry predicates -/

/-- Spec §3 Registry invariant: every value of `byName` references a key
present in `byAddress`. -/
def RegInvariant (reg : Registry) : Prop :=
  ∀ n a, dlookup reg.nameIpMap n = some a → (dlookup reg.deviceRegister a).isSome = true

/-- Well-formedness every Python dict enjoys: duplicate-free keys. -/
def WFRegistry (reg : Registry) : Prop :=
  (dkeys reg.deviceRegister).Nodup ∧ (dkeys reg.nameIpMap).Nodup

/-! ## Device taxonomy (devices.py) -/

/-- Capability tags of the spec's TypeResolver (§4.3), one per leaf
behaviour of the devices.py class hierarchy. -/
inductive Capability where
  | thermometer
  | hygrometer
  | barometer
  | switch
  | rotary
  | display
  | gpio
  | mqtt
  deriving DecidableEq, Repr

/-- The classes of devices.py that occur in `device_name_class_map` or in
the ancestry of one that does. -/
inductive DeviceClass where
  | Thermometer
  | Hygrometer
  | Barometer
  | DS18b20
  | DHT
  | MLX90614
  | BMP085
  | BMx280
  | MS5611
  | Switch
  | GPIO
  | Display
  | Rotary
  | MQTT
  deriving DecidableEq, Repr

/-- Capability set of each class, read off the inheritance lists of
devices.py in declaration (MRO) order: e.g.
`class DHT(Thermometer, Hygrometer, Device)`. -/
def DeviceClass.capabilities : DeviceClass → List Capability
  | DeviceClass.Thermometer => [Capability.thermometer]
  | DeviceClass.Hygrometer => [Capability.hygrometer]
  | DeviceClass.Barometer => [Capability.barometer]
  | DeviceClass.DS18b20 => [Capability.thermometer]
  | DeviceClass.DHT => [Capability.thermometer, Capability.hygrometer]
  | DeviceClass.MLX90614 => [Capability.thermometer]
  | DeviceClass.BMP085 => [Capability.thermometer, Capability.barometer]
  | DeviceClass.BMx280 => [Capability.thermometer, Capability.barometer, Capability.hygrometer]
  | DeviceClass.MS5611 => [Capability.thermometer, Capability.barometer]
  | DeviceClass.Switch => [Capability.switch]
  | DeviceClass.GPIO => [Capability.gpio]
  | DeviceClass.Display => [Capability.display]
  | DeviceClass.Rotary => [Capability.rotary]
  | DeviceClass.MQTT => [Capability.mqtt]

/-- The table `device_name_class_map` (devices.py 256-270), entry for entry. -/
def device_name_class_map : List (String × DeviceClass) := [
  ("DHT", DeviceClass.DHT),
  ("Environment - DHT11/12/22  SONOFF2301/7021", DeviceClass.DHT),
  ("Environment - DHT12 (I2C)", DeviceClass.DHT),
  ("Switch", DeviceClass.Switch),
  ("Switch input - Switch", DeviceClass.Switch),
  ("Display", DeviceClass.Display),
  ("Display - LCD2004", DeviceClass.Display),
  ("Display - OLED SSD1306", DeviceClass.Display),
  ("Display - OLED SSD1306/SH1106 Framed", DeviceClass.Display),
  ("GPIO", DeviceClass.GPIO),
  ("Rotary", DeviceClass.Rotary),
  ("Switch Input - Rotary Encoder", DeviceClass.Rotary),
  ("MQTT", DeviceClass.MQTT),
  ("Generic - MQTT Import", DeviceClass.MQTT)]

/-- The TypeResolver: `Device.__new__` (devices.py 13-22) looks the raw type
string up in `device_name_class_map` by exact (case-sensitive) dict match;
an unmapped string produces no device (reported by a print, no exception),
modelled as the empty capability set. -/
def resolve (t : String) : List Capability :=
  match dlookup device_name_class_map t with
  | some c => DeviceClass.capabilities c
  | none => []

/-- Tail of `ESP.get` after the name map was consulted: plain address
lookup in `_device_register`. -/
def lookupAddress (reg : Registry) (a : String) : Except PyError ESPRecord :=
  match dlookup reg.deviceRegister a with
  | some e => Except.ok e
  | none => Except.error PyError.espNotFound

end Espisy

deriving instance DecidableEq for Except

namespace Espisy

universe u

/-! ## Concrete scenarios used by witnesses and counterexamples -/

/-- A device state with unit name `N` and no sensors. -/
def stPlain : DeviceState := ⟨"N", []⟩

/-- Two addresses whose devices both report the unit name `N`. -/
def netTwin : Net := fun ip =>
  if ip = "10.0.0.1" ∨ ip = "10.0.0.2" then some stPlain else none

def regTwin1 : Registry := (ESP.add netTwin netTwin emptyRegistry "10.0.0.1").2

def regTwin2 : Registry := (ESP.add netTwin netTwin regTwin1 "10.0.0.2").2

/-- After `add` of both twins (the second overwrote the name entry) and
`remove` of the second: the remaining record's name is no longer keyed in
`_name_ip_map`. -/
def regTwin3 : Registry := (ESP.remove regTwin2 "10.0.0.2").2

/-- A device whose unit name is the literal address string of another host. -/
def stShadow : DeviceState := ⟨"10.0.0.2", []⟩

def stB : DeviceState := ⟨"B", []⟩

def netShadow : Net := fun ip =>
  if ip = "10.0.0.1" then some stShadow
  else if ip = "10.0.0.2" then some stB else none

def regShadow1 : Registry := (ESP.add netShadow netShadow emptyRegistry "10.0.0.1").2

def regShadow2 : Registry := (ESP.add netShadow netShadow regShadow1 "10.0.0.2").2

/-- A state whose single task is typed `Switch Input - Rotary Encoder`:
per the fixed table a Rotary, yet its type string contains "switch". -/
def stRotary : DeviceState := ⟨"R", [⟨"knob", "Switch Input - Rotary Encoder"⟩]⟩

/-- A state with a single switch task named `door`. -/
def stDoor : DeviceState := ⟨"D", [⟨"door", "Switch"⟩]⟩

def espDoor : ESPRecord := mkESP "10.0.0.5" stDoor

/-- A persisted settings block with a live mapping (`door`) and a stale one
(`ghost`, no longer among the fresh sensors). -/
def perStale : PerSetting := ⟨some [("door", ⟨some 4⟩), ("ghost", ⟨some 7⟩)]⟩

def stKitchen : DeviceState := ⟨"kitchen", []⟩

/-- The device at `10.0.0.9` answers the first fetch... -/
def netKitchen : Net := fun ip => if ip = "10.0.0.9" then some stKitchen else none

/-- Network where the device is down: the second fetch of the C8 scenario. -/
def netDead : Net := fun _ => none

/-- Four probed addresses, of which exactly two answer — both with the
same unit name `dev`. -/
def netSameName : Net := fun ip =>
  if ip = "10.0.0.1" ∨ ip = "10.0.0.2" then some ⟨"dev", []⟩ else none

/-- Four probed addresses, of which exactly two answer, with distinct
names. -/
def netTwoUp : Net := fun ip =>
  if ip = "10.0.0.1" then some ⟨"dev1", []⟩
  else if ip = "10.0.0.2" then some ⟨"dev2", []⟩ else none

def hostsFour : List String := ["10.0.0.1", "10.0.0.2", "10.0.0.3", "10.0.0.4"]

def netDoor : Net := fun ip => if ip = "10.0.0.5" then some stDoor else none

def regDoor : Registry := (ESP.add netDoor netDoor emptyRegistry "10.0.0.5").2

/-! ## Helper lemmas about the operations -/

theorem dlookup_dinsert_cases {α : Type u} (m : List (String × α)) (k n : String) (v w : α)
    (h : dlookup (dinsert m k v) n = some w) :
    (n = k ∧ w = v) ∨ (n ≠ k ∧ dlookup m n = some w) := by
  by_cases hnk : n = k
  · subst hnk
    rw [dlookup_dinsert_self] at h
    exact Or.inl ⟨rfl, (Option.some.injEq _ _ ▸ h).symm⟩
  · rw [dlookup_dinsert_ne m k n v hnk] at h
    exact Or.inr ⟨hnk, h⟩

theorem initializeSwitches_lookup (sensors : List SensorTask)
    (sw : List (String × SwitchInfo)) (name : String) :
    (dlookup (initializeSwitches sensors sw) name).isSome = true ↔
      ((dlookup sw name).isSome = true ∨
        ∃ s, s ∈ sensors ∧ s.taskName = name ∧ hasSwitchType s.type = true) := by
  induction sensors generalizing sw with
  | nil => simp [initializeSwitches]
  | cons s rest ih =>
      by_cases hty : hasSwitchType s.type = true
      · have hstep : initializeSwitches (s :: rest) sw =
            initializeSwitches rest (dinsert sw s.taskName ⟨none⟩) := by
          simp [initializeSwitches, hty]
        rw [hstep, ih]
        by_cases hname : s.taskName = name
        · subst hname
          simp [dlookup_dinsert_self, hty]
        · rw [dlookup_dinsert_ne sw s.taskName name ⟨none⟩ (fun hh => hname hh.symm)]
          constructor
          · intro hc
            rcases hc with hc | ⟨t, ht, hta, htt⟩
            · exact Or.inl hc
            · exact Or.inr ⟨t, List.mem_cons_of_mem s ht, hta, htt⟩
          · intro hc
            rcases hc with hc | ⟨t, ht, hta, htt⟩
            · exact Or.inl hc
            · rcases List.mem_cons.1 ht with hts | hts
              · exact absurd (hts ▸ hta) hname
              · exact Or.inr ⟨t, hts, hta, htt⟩
      · have hstep : initializeSwitches (s :: rest) sw = initializeSwitches rest sw := by
          simp [initializeSwitches, hty]
        rw [hstep, ih]
        constructor
        · intro hc
          rcases hc with hc | ⟨t, ht, hta, htt⟩
          · exact Or.inl hc
          · exact Or.inr ⟨t, List.mem_cons_of_mem s ht, hta, htt⟩
        · intro hc
          rcases hc with hc | ⟨t, ht, hta, htt⟩
          · exact Or.inl hc
          · rcases List.mem_cons.1 ht with hts | hts
            · exact absurd (hts ▸ htt) hty
            · exact Or.inr ⟨t, hts, hta, htt⟩

theorem initializeSwitches_gpio (sensors : List SensorTask)
    (sw : List (String × SwitchInfo))
    (h : ∀ n v, dlookup sw n = some v → v.gpio = none) :
    ∀ n v, dlookup (initializeSwitches sensors sw) n = some v → v.gpio = none := by
  induction sensors generalizing sw with
  | nil => simpa [initializeSwitches] using h
  | cons s rest ih =>
      by_cases hty : hasSwitchType s.type = true
      · have hstep : initializeSwitches (s :: rest) sw =
            initializeSwitches rest (dinsert sw s.taskName ⟨none⟩) := by
          simp [initializeSwitches, hty]
        rw [hstep]
        refine ih _ ?_
        intro n v hv
        rcases dlookup_dinsert_cases sw s.taskName n ⟨none⟩ v hv with ⟨_, hveq⟩ | ⟨_, hold⟩
        · rw [hveq]
        · exact h n v hold
      · have hstep : initializeSwitches (s :: rest) sw = initializeSwitches rest sw := by
          simp [initializeSwitches, hty]
        rw [hstep]
        exact ih _ h

theorem reconcileStep_frame (ps? : Option (List (String × SwitchInfo)))
    (acc : ESPRecord × List String) (sw : String) :
    (reconcileStep ps? acc sw).1.ip = acc.1.ip ∧
    (reconcileStep ps? acc sw).1.name = acc.1.name ∧
    (reconcileStep ps? acc sw).1.state = acc.1.state ∧
    dkeys (reconcileStep ps? acc sw).1.switches = dkeys acc.1.switches := by
  cases ps? with
  | none => simp [reconcileStep]
  | some ps =>
      cases hdl : dlookup ps sw with
      | none => simp [reconcileStep, hdl]
      | some entry =>
          cases hsw : dlookup acc.1.switches sw with
          | none => simp [reconcileStep, hdl, ESP.map_gpio_to_switch, hsw]
          | some si =>
              have hmem : sw ∈ dkeys acc.1.switches :=
                (dlookup_isSome_iff_mem _ _).1 (by simp [hsw])
              simp [reconcileStep, hdl, ESP.map_gpio_to_switch, hsw, dkeys_dinsert, hmem]

theorem foldl_reconcileStep_frame (L : List String)
    (ps? : Option (List (String × SwitchInfo))) (acc : ESPRecord × List String) :
    (L.foldl (reconcileStep ps?) acc).1.ip = acc.1.ip ∧
    (L.foldl (reconcileStep ps?) acc).1.name = acc.1.name ∧
    (L.foldl (reconcileStep ps?) acc).1.state = acc.1.state ∧
    dkeys (L.foldl (reconcileStep ps?) acc).1.switches = dkeys acc.1.switches := by
  induction L generalizing acc with
  | nil => simp
  | cons sw L ih =>
      have hstep := reconcileStep_frame ps? acc sw
      have hrec := ih (reconcileStep ps? acc sw)
      simp only [List.foldl_cons]
      exact ⟨hrec.1.trans hstep.1, hrec.2.1.trans hstep.2.1,
        hrec.2.2.1.trans hstep.2.2.1, hrec.2.2.2.trans hstep.2.2.2⟩

theorem foldl_reconcileStep_lookup (L : List String) (ps : List (String × SwitchInfo))
    (acc : ESPRecord × List String) (s : String) :
    dlookup (L.foldl (reconcileStep (some ps)) acc).1.switches s =
      if s ∈ L ∧ (dlookup acc.1.switches s).isSome = true ∧ (dlookup ps s).isSome = true
      then Option.map (fun en => SwitchInfo.mk en.gpio) (dlookup ps s)
      else dlookup acc.1.switches s := by
  induction L generalizing acc with
  | nil => simp
  | cons sw L ih =>
      simp only [List.foldl_cons]
      rw [ih]
      have hsome : ((dlookup (reconcileStep (some ps) acc sw).1.switches s).isSome = true) ↔
          ((dlookup acc.1.switches s).isSome = true) := by
        rw [dlookup_isSome_iff_mem, dlookup_isSome_iff_mem,
          (reconcileStep_frame (some ps) acc sw).2.2.2]
      by_cases hs : s = sw
      · subst hs
        cases hps : dlookup ps s with
        | none =>
            have hstep : reconcileStep (some ps) acc s = (acc.1, acc.2 ++ [s]) := by
              simp [reconcileStep, hps]
            rw [hstep]
            simp [hps]
        | some entry =>
            cases hsw : dlookup acc.1.switches s with
            | none =>
                have hstep : reconcileStep (some ps) acc s = (acc.1, acc.2) := by
                  simp [reconcileStep, hps, ESP.map_gpio_to_switch, hsw]
                rw [hstep]
                simp [hsw]
            | some si =>
                have hstep : (reconcileStep (some ps) acc s).1 =
                    { acc.1 with switches := dinsert acc.1.switches s ⟨entry.gpio⟩ } := by
                  simp [reconcileStep, hps, ESP.map_gpio_to_switch, hsw]
                rw [hstep]
                by_cases hmemL : s ∈ L
                · simp [hmemL, dlookup_dinsert_self, hps, hsw]
                · simp [hmemL, dlookup_dinsert_self, hps, hsw]
      · have hne : dlookup (reconcileStep (some ps) acc sw).1.switches s =
            dlookup acc.1.switches s := by
          cases hps : dlookup ps sw with
          | none => simp [reconcileStep, hps]
          | some entry =>
              cases hsw : dlookup acc.1.switches sw with
              | none => simp [reconcileStep, hps, ESP.map_gpio_to_switch, hsw]
              | some si =>
                  have : (reconcileStep (some ps) acc sw).1 =
                      { acc.1 with switches := dinsert acc.1.switches sw ⟨entry.gpio⟩ } := by
                    simp [reconcileStep, hps, ESP.map_gpio_to_switch, hsw]
                  rw [this]
                  exact dlookup_dinsert_ne acc.1.switches sw s ⟨entry.gpio⟩ hs
        rw [hne]
        simp [hs]

theorem foldl_reconcileStep_log (L : List String) (ps : List (String × SwitchInfo))
    (acc : ESPRecord × List String) :
    (L.foldl (reconcileStep (some ps)) acc).2 =
      acc.2 ++ L.filter (fun s => (dlookup ps s).isNone) := by
  induction L generalizing acc with
  | nil => simp
  | cons sw L ih =>
      simp only [List.foldl_cons]
      rw [ih]
      cases hps : dlookup ps sw with
      | none =>
          have hstep : reconcileStep (some ps) acc sw = (acc.1, acc.2 ++ [sw]) := by
            simp [reconcileStep, hps]
          rw [hstep]
          simp [hps, List.filter_cons]
      | some entry =>
          cases hsw : dlookup acc.1.switches sw with
          | none =>
              have hstep : reconcileStep (some ps) acc sw = (acc.1, acc.2) := by
                simp [reconcileStep, hps, ESP.map_gpio_to_switch, hsw]
              rw [hstep]
              simp [hps, List.filter_cons]
          | some si =>
              have hstep : (reconcileStep (some ps) acc sw).2 = acc.2 := by
                simp [reconcileStep, hps, ESP.map_gpio_to_switch, hsw]
              have hstep1 : reconcileStep (some ps) acc sw =
                  ((reconcileStep (some ps) acc sw).1, acc.2) := by
                rw [← hstep]
              rw [hstep1]
              simp [hps, List.filter_cons]

theorem applyOldSettings_nameIpMap (s? : Option SettingsDoc) (reg : Registry) (host : String) :
    (applyOldSettings s? reg host).nameIpMap = reg.nameIpMap := by
  cases hdl : dlookup reg.deviceRegister (resolveKey reg host) with
  | none => simp [applyOldSettings, hdl]
  | some esp =>
      cases s? with
      | none => simp [applyOldSettings, hdl]
      | some sdoc =>
          cases hf : sdoc.esps.find? (fun p => p.1 == esp.ip) with
          | none => simp [applyOldSettings, hdl, hf]
          | some pr =>
              obtain ⟨addr, per⟩ := pr
              by_cases ha : addr = host
              · simp [applyOldSettings, hdl, hf, ha]
              · simp [applyOldSettings, hdl, hf, ha]

theorem applyOldSettings_dkeys (s? : Option SettingsDoc) (reg : Registry) (host : String) :
    dkeys (applyOldSettings s? reg host).deviceRegister = dkeys reg.deviceRegister := by
  cases hdl : dlookup reg.deviceRegister (resolveKey reg host) with
  | none => simp [applyOldSettings, hdl]
  | some esp =>
      have hmem : resolveKey reg host ∈ dkeys reg.deviceRegister :=
        (dlookup_isSome_iff_mem _ _).1 (by simp [hdl])
      cases s? with
      | none => simp [applyOldSettings, hdl]
      | some sdoc =>
          cases hf : sdoc.esps.find? (fun p => p.1 == esp.ip) with
          | none => simp [applyOldSettings, hdl, hf]
          | some pr =>
              obtain ⟨addr, per⟩ := pr
              by_cases ha : addr = host
              · simp [applyOldSettings, hdl, hf, ha, dkeys_dinsert, hmem]
              · simp [applyOldSettings, hdl, hf, ha]

theorem applyOldSettings_lookup_ip (s? : Option SettingsDoc) (reg : Registry) (host k : String) :
    Option.map ESPRecord.ip (dlookup (applyOldSettings s? reg host).deviceRegister k) =
      Option.map ESPRecord.ip (dlookup reg.deviceRegister k) := by
  cases hdl : dlookup reg.deviceRegister (resolveKey reg host) with
  | none => simp [applyOldSettings, hdl]
  | some esp =>
      cases s? with
      | none => simp [applyOldSettings, hdl]
      | some sdoc =>
          cases hf : sdoc.esps.find? (fun p => p.1 == esp.ip) with
          | none => simp [applyOldSettings, hdl, hf]
          | some pr =>
              obtain ⟨addr, per⟩ := pr
              by_cases ha : addr = host
              · simp only [applyOldSettings, hdl, hf, ha, eq_self_iff_true, if_true]
                by_cases hk : k = resolveKey reg host
                · subst hk
                  rw [dlookup_dinsert_self, hdl]
                  have hip := (foldl_reconcileStep_frame (dkeys esp.switches)
                    per.switches (esp, [])).1
                  simp [reconcileSwitches, hip]
                · rw [dlookup_dinsert_ne _ _ _ _ hk]
              · simp [applyOldSettings, hdl, hf, ha]

theorem length_eq_dkeys_length {α : Type u} (m : List (String × α)) :
    m.length = (dkeys m).length := (List.length_map _ _).symm

theorem dinsert_length {α : Type u} (m : List (String × α)) (k : String) (v : α) :
    (dinsert m k v).length = if k ∈ dkeys m then m.length else m.length + 1 := by
  have h := congrArg List.length (dkeys_dinsert m k v)
  rw [← length_eq_dkeys_length] at h
  by_cases hm : k ∈ dkeys m
  · rw [if_pos hm] at h
    rw [if_pos hm, h, ← length_eq_dkeys_length]
  · rw [if_neg hm] at h
    rw [if_neg hm, h, List.length_append, ← length_eq_dkeys_length]
    rfl

theorem connectValidate_none (net : Net) (settings : Option SettingsDoc) (reg : Registry)
    (host : String) (h : net host = none) :
    connectValidate net settings reg host = reg := by
  simp [connectValidate, h]

theorem connectValidate_success (net : Net) (settings : Option SettingsDoc) (reg : Registry)
    (host : String) (st : DeviceState) (h : net host = some st) (hne : st.unitName ≠ "")
    (hfresh : dlookup reg.nameIpMap st.unitName = none) :
    connectValidate net settings reg host =
      applyOldSettings settings
        ⟨dinsert reg.deviceRegister host (mkESP host st),
         dinsert reg.nameIpMap st.unitName host⟩ host := by
  simp [connectValidate, h, hne, hfresh, ESP.add]

theorem connectValidate_collision (net : Net) (settings : Option SettingsDoc) (reg : Registry)
    (host : String) (st : DeviceState) (h : net host = some st)
    (hcol : (dlookup reg.nameIpMap st.unitName).isSome = true) :
    connectValidate net settings reg host = reg := by
  by_cases hne : st.unitName = ""
  · simp [connectValidate, h, hne]
  · simp [connectValidate, h, hne, hcol]

/-! ## Claim theorems -/

/-- C6: the type resolver maps a raw type string to a capability set by
case-sensitive exact match against the fixed table `device_name_class_map`:
"DHT" yields the thermometer+hygrometer set, "Switch" yields the switch
set, an unknown string like "Frobnicator" (or a case-mismatched "dht" /
"switch") yields the empty set, with no exception (the resolver is total). -/
theorem C6_resolver :
    resolve "DHT" = [Capability.thermometer, Capability.hygrometer] ∧
    resolve "Switch" = [Capability.switch] ∧
    resolve "Frobnicator" = [] ∧
    resolve "Environment - DHT11/12/22  SONOFF2301/7021" =
      [Capability.thermometer, Capability.hygrometer] ∧
    resolve "dht" = [] ∧
    resolve "switch" = [] := by
  exact ⟨by decide, by decide, by decide, by decide, by decide, by decide⟩

/-- C10: for a registered record (looked up by an address that is not
shadowed by a unit name) with switch `s` present, `map_gpio_to_switch s g`
sets that switch's gpio to `g` and changes nothing else: the name index,
every other record, the record's address, name and state, and every other
switch entry are unchanged. -/
theorem C10_mapGpio_frame (reg : Registry) (a s : String) (e : ESPRecord) (si : SwitchInfo)
    (g : Int) (hname : dlookup reg.nameIpMap a = none)
    (he : dlookup reg.deviceRegister a = some e) (hs : dlookup e.switches s = some si) :
    ∃ rg, registryMapGpio reg a s (some g) = Except.ok rg ∧
      rg.nameIpMap = reg.nameIpMap ∧
      (∀ a2, a2 ≠ a → dlookup rg.deviceRegister a2 = dlookup reg.deviceRegister a2) ∧
      ∃ e2, dlookup rg.deviceRegister a = some e2 ∧
        e2.ip = e.ip ∧ e2.name = e.name ∧ e2.state = e.state ∧
        dlookup e2.switches s = some ⟨some g⟩ ∧
        (∀ s2, s2 ≠ s → dlookup e2.switches s2 = dlookup e.switches s2) := by
  have hres : resolveKey reg a = a := by simp [resolveKey, hname]
  refine ⟨Registry.mk
      (dinsert reg.deviceRegister a
        (ESPRecord.mk e.ip e.name e.state (dinsert e.switches s ⟨some g⟩)))
      reg.nameIpMap, ?_, rfl, ?_, ?_⟩
  · simp [registryMapGpio, hres, he, ESP.map_gpio_to_switch, hs]
  · intro a2 hne
    exact dlookup_dinsert_ne reg.deviceRegister a a2 _ hne
  · refine ⟨ESPRecord.mk e.ip e.name e.state (dinsert e.switches s ⟨some g⟩),
      dlookup_dinsert_self _ _ _, rfl, rfl, rfl, dlookup_dinsert_self _ _ _, ?_⟩
    intro s2 hne2
    exact dlookup_dinsert_ne e.switches s s2 _ hne2

/-- C10 witness: on the one-device registry `regDoor`, mapping gpio 13 to
the switch `door` of the record at `10.0.0.5` succeeds and behaves as the
frame theorem states. -/
theorem C10_mapGpio_frame_witness :
    ∃ rg, registryMapGpio regDoor "10.0.0.5" "door" (some 13) = Except.ok rg ∧
      rg.nameIpMap = regDoor.nameIpMap ∧
      (∀ a2, a2 ≠ "10.0.0.5" →
        dlookup rg.deviceRegister a2 = dlookup regDoor.deviceRegister a2) ∧
      ∃ e2, dlookup rg.deviceRegister "10.0.0.5" = some e2 ∧
        e2.ip = espDoor.ip ∧ e2.name = espDoor.name ∧ e2.state = espDoor.state ∧
        dlookup e2.switches "door" = some ⟨some 13⟩ ∧
        (∀ s2, s2 ≠ "door" →
          dlookup e2.switches s2 = dlookup espDoor.switches s2) := by
  exact C10_mapGpio_frame regDoor "10.0.0.5" "door" espDoor ⟨none⟩ 13
    (by decide) (by decide) (by decide)

/-- C1 (amended): `remove(A)` for an address A present in `byAddress` whose
record's name is still a key of `byName` deletes A from `byAddress`,
deletes that name from `byName` and returns the record; `remove(A)` for an
absent A raises `KeyError` — not `ESPNotFoundError` — and never silently
succeeds. -/
theorem C1_remove_amended (reg : Registry) (A : String) (r : ESPRecord)
    (hwf : WFRegistry reg) :
    (dlookup reg.deviceRegister A = some r →
      (dlookup reg.nameIpMap r.name).isSome = true →
      (ESP.remove reg A).1 = Except.ok r ∧
      dlookup (ESP.remove reg A).2.deviceRegister A = none ∧
      dlookup (ESP.remove reg A).2.nameIpMap r.name = none) ∧
    (dlookup reg.deviceRegister A = none →
      ESP.remove reg A = (Except.error (PyError.keyError A), reg)) := by
  constructor
  · intro hA hname
    obtain ⟨dr1, hdr⟩ := dpop_eq_some_of_dlookup _ _ _ hA
    obtain ⟨nv, hnv⟩ := Option.isSome_iff_exists.1 hname
    obtain ⟨nm1, hnm⟩ := dpop_eq_some_of_dlookup _ _ _ hnv
    have hd1 := dpop_lookup_self _ _ _ _ hwf.1 hdr
    have hn1 := dpop_lookup_self _ _ _ _ hwf.2 hnm
    simp [ESP.remove, hdr, hnm, hd1.2, hn1.2]
  · intro hA
    have hnone : dpop reg.deviceRegister A = none := (dpop_eq_none_iff _ _).2 hA
    simp [ESP.remove, hnone]

/-- C1 witness: on the one-device registry `regTwin1`, removing
`10.0.0.1` returns the record and clears both indices; removing from the
empty registry raises `KeyError`. -/
theorem C1_remove_witness :
    (ESP.remove regTwin1 "10.0.0.1").1 = Except.ok (mkESP "10.0.0.1" stPlain) ∧
    dlookup (ESP.remove regTwin1 "10.0.0.1").2.deviceRegister "10.0.0.1" = none ∧
    dlookup (ESP.remove regTwin1 "10.0.0.1").2.nameIpMap (mkESP "10.0.0.1" stPlain).name =
      none ∧
    ESP.remove emptyRegistry "10.0.0.7" =
      (Except.error (PyError.keyError "10.0.0.7"), emptyRegistry) := by
  have h := C1_remove_amended regTwin1 "10.0.0.1" (mkESP "10.0.0.1" stPlain)
    ⟨by decide, by decide⟩
  have h2 := C1_remove_amended emptyRegistry "10.0.0.7" (mkESP "10.0.0.1" stPlain)
    ⟨by decide, by decide⟩
  obtain ⟨ha, hb, hc⟩ := h.1 (by decide) (by decide)
  exact ⟨ha, hb, hc, h2.2 (by decide)⟩

/-- C1 counterexample: the claim as stated is false on the code in two
ways.  First, `remove` on an absent address raises `KeyError`, not
`NotFoundError`.  Second, in the reachable registry `regTwin3` (two
same-named devices added, the second removed) the remaining address is
present, yet `remove` raises `KeyError` on the name pop — after having
already deleted the record from `byAddress` — instead of returning the
removed record. -/
theorem C1_remove_counterexample :
    (ESP.remove emptyRegistry "10.0.0.1").1 = Except.error (PyError.keyError "10.0.0.1") ∧
    (ESP.remove emptyRegistry "10.0.0.1").1 ≠ Except.error PyError.espNotFound ∧
    (dlookup regTwin3.deviceRegister "10.0.0.1").isSome = true ∧
    (ESP.remove regTwin3 "10.0.0.1").1 = Except.error (PyError.keyError "N") ∧
    dlookup (ESP.remove regTwin3 "10.0.0.1").2.deviceRegister "10.0.0.1" = none := by
  exact ⟨by decide, by decide, by decide, by decide, by decide⟩

/-- C9: a direct `add(B)` whose device reports a name N already mapped to a
different registered address A performs no collision check: it overwrites
the name index (so `get(N)` then resolves to B) while both addresses stay
registered. -/
theorem C9_add_name_overwrite (net : Net) (reg : Registry) (B N A : String)
    (rA : ESPRecord) (st : DeviceState) (h1 : net B = some st) (h2 : st.unitName = N)
    (h3 : dlookup reg.nameIpMap N = some A) (h4 : dlookup reg.deviceRegister A = some rA)
    (h5 : A ≠ B) :
    (ESP.add net net reg B).1 = Except.ok () ∧
    dlookup (ESP.add net net reg B).2.nameIpMap N = some B ∧
    dlookup (ESP.add net net reg B).2.deviceRegister A = some rA ∧
    Except.map ESPRecord.ip (ESP.get (ESP.add net net reg B).2 N) = Except.ok B := by
  have hadd : ESP.add net net reg B = (Except.ok (),
      ⟨dinsert reg.deviceRegister B (mkESP B st), dinsert reg.nameIpMap N B⟩) := by
    simp [ESP.add, h1, h2]
  rw [hadd]
  refine ⟨rfl, dlookup_dinsert_self _ _ _, ?_, ?_⟩
  · rw [dlookup_dinsert_ne reg.deviceRegister B A _ h5]
    exact h4
  · simp [ESP.get, resolveKey, dlookup_dinsert_self, mkESP, Except.map]

/-- C9 witness: with `10.0.0.1` registered under the name `N`, a direct
`add("10.0.0.2")` of the same-named twin overwrites the name entry; both
addresses stay registered and `get("N")` now resolves to `10.0.0.2`. -/
theorem C9_add_name_overwrite_witness :
    (ESP.add netTwin netTwin regTwin1 "10.0.0.2").1 = Except.ok () ∧
    dlookup (ESP.add netTwin netTwin regTwin1 "10.0.0.2").2.nameIpMap "N" =
      some "10.0.0.2" ∧
    dlookup (ESP.add netTwin netTwin regTwin1 "10.0.0.2").2.deviceRegister "10.0.0.1" =
      some (mkESP "10.0.0.1" stPlain) ∧
    Except.map ESPRecord.ip
      (ESP.get (ESP.add netTwin netTwin regTwin1 "10.0.0.2").2 "N") =
      Except.ok "10.0.0.2" := by
  exact C9_add_name_overwrite netTwin regTwin1 "10.0.0.2" "N" "10.0.0.1"
    (mkESP "10.0.0.1" stPlain) stPlain (by decide) (by decide) (by decide)
    (by decide) (by decide)

/-- C8 (code bug): `add` updates `_name_ip_map` before the
record-constructing second fetch; when the device goes down between the two
fetches, the name stays indexed while the address is never registered —
the byName→byAddress invariant the spec demands is violated by the partial
failure. -/
theorem C8_add_partial_failure :
    (ESP.add netKitchen netDead emptyRegistry "10.0.0.9").1 =
      Except.error PyError.transport ∧
    dlookup (ESP.add netKitchen netDead emptyRegistry "10.0.0.9").2.nameIpMap "kitchen" =
      some "10.0.0.9" ∧
    dlookup (ESP.add netKitchen netDead emptyRegistry "10.0.0.9").2.deviceRegister
      "10.0.0.9" = none ∧
    ¬ RegInvariant (ESP.add netKitchen netDead emptyRegistry "10.0.0.9").2 := by
  refine ⟨by decide, by decide, by decide, ?_⟩
  intro hinv
  have h := hinv "kitchen" "10.0.0.9" (by decide)
  have h2 : dlookup (ESP.add netKitchen netDead emptyRegistry "10.0.0.9").2.deviceRegister
      "10.0.0.9" = none := by decide
  rw [h2] at h
  simp at h

/-- C4 (amended): `add(A)` then `get(A)` returns the record at A — provided
A is not already registered as a unit name (the name index is consulted
first and can shadow an address); `get` resolves a registered name through
`byName` before `byAddress`; and `get(k)` fails with `ESPNotFoundError`
when k matches neither index. -/
theorem C4_get_amended (net : Net) (reg : Registry) (A : String) (st : DeviceState)
    (h1 : net A = some st) (h2 : dlookup reg.nameIpMap A = none) :
    Except.map ESPRecord.ip (ESP.get (ESP.add net net reg A).2 A) = Except.ok A ∧
    (∀ k a, dlookup reg.nameIpMap k = some a → ESP.get reg k = lookupAddress reg a) ∧
    (∀ k, dlookup reg.nameIpMap k = none → dlookup reg.deviceRegister k = none →
      ESP.get reg k = Except.error PyError.espNotFound) := by
  refine ⟨?_, ?_, ?_⟩
  · have hadd : ESP.add net net reg A = (Except.ok (),
        ⟨dinsert reg.deviceRegister A (mkESP A st),
         dinsert reg.nameIpMap st.unitName A⟩) := by
      simp [ESP.add, h1]
    rw [hadd]
    have hres : resolveKey
        ⟨dinsert reg.deviceRegister A (mkESP A st),
         dinsert reg.nameIpMap st.unitName A⟩ A = A := by
      by_cases hn : st.unitName = A
      · subst hn
        simp [resolveKey, dlookup_dinsert_self]
      · rw [resolveKey]
        rw [show dlookup (dinsert reg.nameIpMap st.unitName A) A =
            dlookup reg.nameIpMap A from
          dlookup_dinsert_ne reg.nameIpMap st.unitName A A (fun hh => hn hh.symm), h2]
    rw [ESP.get, hres]
    simp [dlookup_dinsert_self, mkESP, Except.map]
  · intro k a hk
    simp [ESP.get, lookupAddress, resolveKey, hk]
  · intro k hk1 hk2
    simp [ESP.get, lookupAddress, resolveKey, hk1, hk2]

/-- C4 witness: adding `10.0.0.5` (device `D`, one switch) to the empty
registry and getting it back yields a record at that address; a key in
neither index fails with `ESPNotFoundError`. -/
theorem C4_get_witness :
    Except.map ESPRecord.ip
      (ESP.get (ESP.add netDoor netDoor emptyRegistry "10.0.0.5").2 "10.0.0.5") =
      Except.ok "10.0.0.5" ∧
    ESP.get emptyRegistry "10.9.9.9" = Except.error PyError.espNotFound := by
  have h := C4_get_amended netDoor emptyRegistry "10.0.0.5" stDoor (by decide) (by decide)
  exact ⟨h.1, h.2.2 "10.9.9.9" (by decide) (by decide)⟩

/-- C4 counterexample: the claim's first conjunct is false as universally
stated.  The device at `10.0.0.1` reports the unit name `10.0.0.2` — the
address string of another host.  After `add("10.0.0.1")` and
`add("10.0.0.2")` both succeed, `get("10.0.0.2")` resolves through the
name index first and returns the record at `10.0.0.1`, not at
`10.0.0.2`. -/
theorem C4_get_counterexample :
    (ESP.add netShadow netShadow regShadow1 "10.0.0.2").1 = Except.ok () ∧
    Except.map ESPRecord.ip (ESP.get regShadow2 "10.0.0.2") = Except.ok "10.0.0.1" ∧
    Except.map ESPRecord.ip (ESP.get regShadow2 "10.0.0.2") ≠ Except.ok "10.0.0.2" := by
  exact ⟨by decide, by decide, by decide⟩

/-- C5 (amended): immediately after construction the switches keys are
exactly the task names whose reported `Type` contains "switch"
case-insensitively (a substring test, not the fixed type table), each with
gpio unset; a bare `refresh` replaces only the state snapshot and never
re-derives or removes switches, so previously present switches are
retained until explicitly deleted. -/
theorem C5_switches_amended (ip : String) (st : DeviceState) :
    (∀ name, (dlookup (mkESP ip st).switches name).isSome = true ↔
        ∃ s, s ∈ st.sensors ∧ s.taskName = name ∧ hasSwitchType s.type = true) ∧
    (∀ name v, dlookup (mkESP ip st).switches name = some v → v.gpio = none) ∧
    (∀ (e : ESPRecord) (st2 : DeviceState), (ESP.refresh e st2).switches = e.switches) := by
  refine ⟨?_, ?_, fun e st2 => rfl⟩
  · intro name
    have h := initializeSwitches_lookup st.sensors [] name
    simpa [mkESP, dlookup] using h
  · intro name v hv
    refine initializeSwitches_gpio st.sensors [] ?_ name v hv
    intro n w hw
    simp [dlookup] at hw

/-- C5 witness: the single task `door` of type `Switch` becomes a switch
key of the freshly constructed record. -/
theorem C5_switches_witness :
    (dlookup (mkESP "10.0.0.5" stDoor).switches "door").isSome = true := by
  have h := C5_switches_amended "10.0.0.5" stDoor
  exact (h.1 "door").2 ⟨⟨"door", "Switch"⟩, by decide, rfl, by decide⟩

/-- C5 counterexample: the claim as stated is false on the code in two
ways.  First, the derivation is a substring test, not the fixed type
table: the task `knob` of type `Switch Input - Rotary Encoder` — a Rotary
per the table, not a switch kind — becomes a switches key anyway.  Second,
a bare `refresh` does not re-derive the keys: refreshing a switchless
record to a snapshot that contains the switch task `door` leaves the
switches mapping empty. -/
theorem C5_switches_counterexample :
    dlookup (mkESP "10.0.0.3" stRotary).switches "knob" = some ⟨none⟩ ∧
    resolve "Switch Input - Rotary Encoder" = [Capability.rotary] ∧
    ¬ Capability.switch ∈ resolve "Switch Input - Rotary Encoder" ∧
    (ESP.refresh (mkESP "10.0.0.3" ⟨"R", []⟩) stDoor).switches = [] ∧
    hasSwitchType "Switch" = true := by
  exact ⟨by decide, by decide, by decide, by decide, by decide⟩

/-- C7 (amended): for every fresh switch with a persisted entry the
persisted gpio value is applied; a stale persisted name (absent from the
fresh switches) is never visited — it is skipped silently, not logged, and
not applied; the log lists exactly the fresh switches that lack persisted
info; the loop never raises and completes for all remaining switches
(record identity fields are untouched). -/
theorem C7_reconcile_amended (esp : ESPRecord) (ps : List (String × SwitchInfo)) :
    (∀ s entry, s ∈ dkeys esp.switches → dlookup ps s = some entry →
      dlookup (reconcileSwitches esp ⟨some ps⟩).1.switches s = some ⟨entry.gpio⟩) ∧
    (∀ s, ¬ s ∈ dkeys esp.switches →
      dlookup (reconcileSwitches esp ⟨some ps⟩).1.switches s = dlookup esp.switches s) ∧
    (reconcileSwitches esp ⟨some ps⟩).2 =
      (dkeys esp.switches).filter (fun s => (dlookup ps s).isNone) ∧
    (reconcileSwitches esp ⟨some ps⟩).1.ip = esp.ip ∧
    (reconcileSwitches esp ⟨some ps⟩).1.name = esp.name ∧
    (reconcileSwitches esp ⟨some ps⟩).1.state = esp.state := by
  have hframe := foldl_reconcileStep_frame (dkeys esp.switches) (some ps) (esp, [])
  refine ⟨?_, ?_, ?_, hframe.1, hframe.2.1, hframe.2.2.1⟩
  · intro s entry hmem hentry
    rw [reconcileSwitches, foldl_reconcileStep_lookup]
    rw [if_pos ⟨hmem, (dlookup_isSome_iff_mem _ _).2 hmem, by simp [hentry]⟩, hentry]
    rfl
  · intro s hns
    rw [reconcileSwitches, foldl_reconcileStep_lookup]
    rw [if_neg (fun hc => hns hc.1)]
  · rw [reconcileSwitches, foldl_reconcileStep_log]
    simp

/-- C7 witness: the spec's reconciliation scenario — persisted
`door ↦ gpio 4` applied to the freshly discovered switch `door` of the
device at `10.0.0.5`. -/
theorem C7_reconcile_witness :
    dlookup (reconcileSwitches espDoor ⟨some [("door", ⟨some 4⟩)]⟩).1.switches "door" =
      some ⟨some 4⟩ := by
  have h := C7_reconcile_amended espDoor [("door", ⟨some 4⟩)]
  exact h.1 "door" ⟨some 4⟩ (by decide) (by decide)

/-- C7 counterexample: the claim's "skipped with a log message" is false
for stale persisted names.  With fresh switches `door` and persisted
entries for `door` and the stale `ghost`, reconciliation applies `door`,
skips `ghost` — and logs nothing at all (the log fires only for fresh
switches lacking persisted info, the opposite case). -/
theorem C7_reconcile_counterexample :
    (reconcileSwitches espDoor perStale).2 = [] ∧
    dlookup (reconcileSwitches espDoor perStale).1.switches "door" = some ⟨some 4⟩ ∧
    dlookup (reconcileSwitches espDoor perStale).1.switches "ghost" = none ∧
    ¬ "ghost" ∈ dkeys espDoor.switches := by
  exact ⟨by decide, by decide, by decide, by decide⟩

/-- C3: scanning two distinct addresses whose devices report the same unit
name registers only the first: after the scan the name resolves to the
first-probed address, the first record is intact, the second address is
not registered, and `get(name)` returns the first-registered record. -/
theorem C3_collision_first_seen (net : Net) (settings : Option SettingsDoc)
    (h1 h2 : String) (st1 st2 : DeviceState) (n : String)
    (ha : net h1 = some st1) (hb : net h2 = some st2)
    (hn1 : st1.unitName = n) (hn2 : st2.unitName = n) (hne : n ≠ "") (hdist : h1 ≠ h2) :
    dlookup (ESP.scan_network net settings emptyRegistry [h1, h2]).nameIpMap n =
      some h1 ∧
    Option.map ESPRecord.ip
      (dlookup (ESP.scan_network net settings emptyRegistry [h1, h2]).deviceRegister h1) =
      some h1 ∧
    dlookup (ESP.scan_network net settings emptyRegistry [h1, h2]).deviceRegister h2 =
      none ∧
    Except.map ESPRecord.ip
      (ESP.get (ESP.scan_network net settings emptyRegistry [h1, h2]) n) =
      Except.ok h1 := by
  have hs1 : connectValidate net settings emptyRegistry h1 =
      applyOldSettings settings ⟨[(h1, mkESP h1 st1)], [(n, h1)]⟩ h1 := by
    have h := connectValidate_success net settings emptyRegistry h1 st1 ha
      (by rw [hn1]; exact hne) (by simp [emptyRegistry, dlookup])
    rw [h]
    simp [emptyRegistry, dinsert, hn1]
  have hnm1 : (applyOldSettings settings ⟨[(h1, mkESP h1 st1)], [(n, h1)]⟩ h1).nameIpMap =
      [(n, h1)] :=
    applyOldSettings_nameIpMap settings ⟨[(h1, mkESP h1 st1)], [(n, h1)]⟩ h1
  have hdk : dkeys (applyOldSettings settings
      ⟨[(h1, mkESP h1 st1)], [(n, h1)]⟩ h1).deviceRegister = [h1] :=
    applyOldSettings_dkeys settings ⟨[(h1, mkESP h1 st1)], [(n, h1)]⟩ h1
  have hcol : (dlookup (applyOldSettings settings
      ⟨[(h1, mkESP h1 st1)], [(n, h1)]⟩ h1).nameIpMap st2.unitName).isSome = true := by
    rw [hn2, hnm1]
    simp [dlookup]
  have hscan : ESP.scan_network net settings emptyRegistry [h1, h2] =
      applyOldSettings settings ⟨[(h1, mkESP h1 st1)], [(n, h1)]⟩ h1 := by
    simp only [ESP.scan_network, List.foldl_cons, List.foldl_nil]
    rw [hs1, connectValidate_collision net settings _ h2 st2 hb hcol]
  have hip : Option.map ESPRecord.ip (dlookup (applyOldSettings settings
      ⟨[(h1, mkESP h1 st1)], [(n, h1)]⟩ h1).deviceRegister h1) = some h1 := by
    rw [applyOldSettings_lookup_ip]
    simp [dlookup, mkESP]
  refine ⟨?_, ?_, ?_, ?_⟩
  · rw [hscan, hnm1]
    simp [dlookup]
  · rw [hscan]
    exact hip
  · rw [hscan]
    refine (dlookup_eq_none_iff_not_mem _ _).2 ?_
    rw [hdk]
    simp
    exact fun hh => hdist hh.symm
  · rw [hscan]
    have hres : resolveKey (applyOldSettings settings
        ⟨[(h1, mkESP h1 st1)], [(n, h1)]⟩ h1) n = h1 := by
      rw [resolveKey, hnm1]
      simp [dlookup]
    rw [ESP.get, hres]
    cases hdl : dlookup (applyOldSettings settings
        ⟨[(h1, mkESP h1 st1)], [(n, h1)]⟩ h1).deviceRegister h1 with
    | none => rw [hdl] at hip; simp at hip
    | some e =>
        rw [hdl] at hip
        simp at hip
        simp [Except.map, hip]

/-- C3 witness: scanning the twins `10.0.0.1` / `10.0.0.2` (both named
`dev`): the second is skipped and `dev` resolves to the first. -/
theorem C3_collision_first_seen_witness :
    dlookup (ESP.scan_network netSameName none emptyRegistry
      ["10.0.0.1", "10.0.0.2"]).nameIpMap "dev" = some "10.0.0.1" ∧
    dlookup (ESP.scan_network netSameName none emptyRegistry
      ["10.0.0.1", "10.0.0.2"]).deviceRegister "10.0.0.2" = none ∧
    Except.map ESPRecord.ip
      (ESP.get (ESP.scan_network netSameName none emptyRegistry
        ["10.0.0.1", "10.0.0.2"]) "dev") = Except.ok "10.0.0.1" := by
  have h := C3_collision_first_seen netSameName none "10.0.0.1" "10.0.0.2"
    ⟨"dev", []⟩ ⟨"dev", []⟩ "dev" (by decide) (by decide) (by decide) (by decide)
    (by decide) (by decide)
  exact ⟨h.1, h.2.2.1, h.2.2.2⟩

/-- Induction workhorse for C2: scanning a duplicate-free host list whose
addresses are unregistered and whose answering devices report nonempty,
pairwise-distinct, unregistered names grows `byAddress` by exactly the
number of answering hosts. -/
theorem scan_count_aux (net : Net) (settings : Option SettingsDoc) :
    ∀ (hosts : List String) (reg : Registry),
      hosts.Nodup →
      (∀ h, h ∈ hosts → dlookup reg.deviceRegister h = none) →
      (hosts.filterMap (fun x => (net x).map DeviceState.unitName)).Nodup →
      (∀ n, n ∈ hosts.filterMap (fun x => (net x).map DeviceState.unitName) →
        n ≠ "" ∧ dlookup reg.nameIpMap n = none) →
      (ESP.scan_network net settings reg hosts).deviceRegister.length =
        reg.deviceRegister.length + (hosts.filter (fun x => (net x).isSome)).length := by
  intro hosts
  induction hosts with
  | nil =>
      intro reg _ _ _ _
      simp [ESP.scan_network]
  | cons h rest ih =>
      intro reg hnd hfa hnn hfr
      cases hst : net h with
      | none =>
          have hnames : (h :: rest).filterMap (fun x => (net x).map DeviceState.unitName) =
              rest.filterMap (fun x => (net x).map DeviceState.unitName) := by
            simp [List.filterMap_cons, hst]
          rw [hnames] at hnn hfr
          have hscan : ESP.scan_network net settings reg (h :: rest) =
              ESP.scan_network net settings reg rest := by
            simp only [ESP.scan_network, List.foldl_cons]
            rw [connectValidate_none net settings reg h hst]
          rw [hscan]
          have hfilter : (h :: rest).filter (fun x => (net x).isSome) =
              rest.filter (fun x => (net x).isSome) := by
            simp [List.filter_cons, hst]
          rw [hfilter]
          exact ih reg (List.nodup_cons.1 hnd).2
            (fun h2 hm => hfa h2 (List.mem_cons_of_mem h hm)) hnn hfr
      | some st =>
          have hnames : (h :: rest).filterMap (fun x => (net x).map DeviceState.unitName) =
              st.unitName :: rest.filterMap (fun x => (net x).map DeviceState.unitName) := by
            simp [List.filterMap_cons, hst]
          rw [hnames] at hnn hfr
          obtain ⟨hne, hfreshn⟩ := hfr st.unitName (List.mem_cons_self _ _)
          have hfreshh : dlookup reg.deviceRegister h = none :=
            hfa h (List.mem_cons_self h rest)
          have hstep := connectValidate_success net settings reg h st hst hne hfreshn
          have hscan : ESP.scan_network net settings reg (h :: rest) =
              ESP.scan_network net settings (applyOldSettings settings
                ⟨dinsert reg.deviceRegister h (mkESP h st),
                 dinsert reg.nameIpMap st.unitName h⟩ h) rest := by
            simp only [ESP.scan_network, List.foldl_cons]
            rw [hstep]
          rw [hscan]
          have f1 := applyOldSettings_nameIpMap settings
            ⟨dinsert reg.deviceRegister h (mkESP h st),
             dinsert reg.nameIpMap st.unitName h⟩ h
          have f2 : dkeys (applyOldSettings settings
              ⟨dinsert reg.deviceRegister h (mkESP h st),
               dinsert reg.nameIpMap st.unitName h⟩ h).deviceRegister =
              dkeys reg.deviceRegister ++ [h] := by
            rw [applyOldSettings_dkeys]
            exact dkeys_dinsert_of_not_mem _ _ _
              ((dlookup_eq_none_iff_not_mem _ _).1 hfreshh)
          have f3 : (applyOldSettings settings
              ⟨dinsert reg.deviceRegister h (mkESP h st),
               dinsert reg.nameIpMap st.unitName h⟩ h).deviceRegister.length =
              reg.deviceRegister.length + 1 := by
            rw [length_eq_dkeys_length, f2, List.length_append,
              ← length_eq_dkeys_length]
            rfl
          have hres := ih (applyOldSettings settings
              ⟨dinsert reg.deviceRegister h (mkESP h st),
               dinsert reg.nameIpMap st.unitName h⟩ h)
            (List.nodup_cons.1 hnd).2
            (fun h2 hm => by
              refine (dlookup_eq_none_iff_not_mem _ _).2 ?_
              rw [f2]
              simp only [List.mem_append, List.mem_singleton]
              intro hc
              rcases hc with hc | hc
              · exact (dlookup_eq_none_iff_not_mem _ _).1
                  (hfa h2 (List.mem_cons_of_mem h hm)) hc
              · exact (List.nodup_cons.1 hnd).1 (hc ▸ hm))
            (List.nodup_cons.1 hnn).2
            (fun n2 hm => by
              obtain ⟨hn2, hf2⟩ := hfr n2 (List.mem_cons_of_mem _ hm)
              refine ⟨hn2, ?_⟩
              rw [f1]
              rw [dlookup_dinsert_ne reg.nameIpMap st.unitName n2 h
                (fun hh => (List.nodup_cons.1 hnn).1 (hh ▸ hm))]
              exact hf2)
          rw [hres, f3]
          have hfilter : (h :: rest).filter (fun x => (net x).isSome) =
              h :: rest.filter (fun x => (net x).isSome) := by
            simp [List.filter_cons, hst]
          rw [hfilter]
          simp only [List.length_cons]
          omega

/-- C2 (amended): a probe whose fetch fails (timeout, refusal, decode
failure) leaves the registry untouched and raises nothing; and a scan over
a duplicate-free range of unregistered addresses in which exactly k hosts
answer with valid JSON — reporting nonempty, pairwise-distinct,
unregistered unit names — while the rest fail, adds exactly k records. -/
theorem C2_scan_amended (net : Net) (settings : Option SettingsDoc) :
    (∀ (reg : Registry) (h : String), net h = none →
        connectValidate net settings reg h = reg) ∧
    (∀ (hosts : List String) (reg : Registry),
      hosts.Nodup →
      (∀ h, h ∈ hosts → dlookup reg.deviceRegister h = none) →
      (hosts.filterMap (fun x => (net x).map DeviceState.unitName)).Nodup →
      (∀ n, n ∈ hosts.filterMap (fun x => (net x).map DeviceState.unitName) →
        n ≠ "" ∧ dlookup reg.nameIpMap n = none) →
      (ESP.scan_network net settings reg hosts).deviceRegister.length =
        reg.deviceRegister.length + (hosts.filter (fun x => (net x).isSome)).length) := by
  exact ⟨fun reg h hnet => connectValidate_none net settings reg h hnet,
    scan_count_aux net settings⟩

/-- C2 witness: scanning four fresh addresses of which exactly two answer
(with distinct names `dev1`, `dev2`) and two time out adds exactly two
records; a failing probe alone is the identity on the registry. -/
theorem C2_scan_witness :
    (ESP.scan_network netTwoUp none emptyRegistry hostsFour).deviceRegister.length =
      emptyRegistry.deviceRegister.length +
        (hostsFour.filter (fun x => (netTwoUp x).isSome)).length ∧
    (ESP.scan_network netTwoUp none emptyRegistry hostsFour).deviceRegister.length = 2 ∧
    connectValidate netTwoUp none emptyRegistry "10.0.0.3" = emptyRegistry := by
  have h := C2_scan_amended netTwoUp none
  refine ⟨h.2 hostsFour emptyRegistry (by decide) (by decide) (by decide) (by decide),
    by decide, h.1 emptyRegistry "10.0.0.3" (by decide)⟩

/-- C2 counterexample: the claim's "exactly k new records" consequent is
false as stated when answering devices share a unit name.  Over four
addresses, exactly two answer with valid JSON — both named `dev` — and two
time out; after the scan the registry holds one record, not two. -/
theorem C2_scan_counterexample :
    (hostsFour.filter (fun x => (netSameName x).isSome)).length = 2 ∧
    (ESP.scan_network netSameName none emptyRegistry hostsFour).deviceRegister.length =
      1 := by
  exact ⟨by decide, by decide⟩

end Espisy
